import Mathlib

/-!
Verification of the WiFi-record ingestion pipeline of `src/handlers.py`
(`TheBestBot_NL`).  The pipeline's pure decision logic is shallowly embedded:
parsed JSON documents are modelled by `JsonValue`, Python dicts by association
lists with unique keys, and the storage collaborator (`controler.Controller`,
not part of the decision logic) by an oracle `PyDict → StorageResult`.
Python floats appear here only in order comparisons against integer literals,
where IEEE comparison agrees with exact rational comparison, so they are
modelled by `ℚ`.
-/

/-- A parsed JSON document, as produced by `json.loads`. -/
inductive JsonValue where
  | null
  | bool (b : Bool)
  | int (n : Int)
  | float (q : ℚ)
  | str (s : String)
  | arr (items : List JsonValue)
  | obj (fields : List (String × JsonValue))

/-- A Python dict with string keys, as an association list (insertion order). -/
abbrev PyDict := List (String × JsonValue)

/-- `isinstance(x, dict)`. -/
def JsonValue.isDict : JsonValue → Bool
  | .obj _ => true
  | _ => false

/-- `x is None`. -/
def JsonValue.isNull : JsonValue → Bool
  | .null => true
  | _ => false

/-- Python `d.get(k)` / `d[k]` (dict keys are unique, first match). -/
def pyGet (d : PyDict) (k : String) : Option JsonValue :=
  (d.find? (fun p => p.1 = k)).map (fun p => p.2)

/-- `isinstance(x, str)`. -/
def isPyStr : JsonValue → Bool
  | .str _ => true
  | _ => false

/-- `len(x)` for the string case (only used after the `isinstance(x, str)` guard). -/
def pyStrLen : JsonValue → Nat
  | .str s => s.length
  | _ => 0

/-- `isinstance(x, (int, float))`.  In Python `bool` is a subtype of `int`,
so booleans satisfy this check as well. -/
def isPyNumber : JsonValue → Bool
  | .int _ => true
  | .float _ => true
  | .bool _ => true
  | _ => false

/-- `isinstance(x, int)`.  Includes booleans (`bool` subclasses `int`). -/
def isPyInt : JsonValue → Bool
  | .int _ => true
  | .bool _ => true
  | _ => false

/-- Numeric value used in Python order comparisons (`True == 1`, `False == 0`). -/
def pyNumVal : JsonValue → ℚ
  | .int n => (n : ℚ)
  | .float q => q
  | .bool b => if b then 1 else 0
  | _ => 0

/-- Integer value of an `isinstance(x, int)` value. -/
def pyIntVal : JsonValue → Int
  | .int n => n
  | .bool b => if b then 1 else 0
  | _ => 0

/-- `required_fields` of `_validate_wifi_data` (handlers.py line 88). -/
def required_fields : List String :=
  ["bssid", "frequency", "rssi", "ssid", "timestamp"]

/-- `_validate_wifi_data` (handlers.py lines 86-110): checks presence of the
five required fields in order, then type/range checks, short-circuiting with
`(False, reason)` on the first failure. -/
def _validate_wifi_data (data : PyDict) : Bool × String :=
  match required_fields.find? (fun f => (pyGet data f).isNone) with
  | some f => (false, "Отсутствует обязательное поле: " ++ f)
  | none =>
    let bssid := (pyGet data "bssid").getD JsonValue.null
    let ssid := (pyGet data "ssid").getD JsonValue.null
    let frequency := (pyGet data "frequency").getD JsonValue.null
    let rssi := (pyGet data "rssi").getD JsonValue.null
    let timestamp := (pyGet data "timestamp").getD JsonValue.null
    if ¬ isPyStr bssid = true ∨ pyStrLen bssid = 0 then
      (false, "BSSID должен быть непустой строкой")
    else if ¬ isPyStr ssid = true then
      (false, "SSID должен быть строкой")
    else if ¬ isPyNumber frequency = true ∨ pyNumVal frequency ≤ 0 then
      (false, "Frequency должен быть положительным числом")
    else if ¬ isPyInt rssi = true ∨ 0 < pyIntVal rssi then
      (false, "RSSI должен быть целым отрицательным числом")
    else if ¬ isPyNumber timestamp = true ∨ pyNumVal timestamp ≤ 0 then
      (false, "Timestamp должен быть положительным числом")
    else (true, "")

/-- Keys defaulted to `0` when `None` (handlers.py line 120). -/
def numeric_default_keys : List String := ["frequency", "rssi", "timestamp"]

/-- Keys defaulted to `""` when `None` (handlers.py line 122). -/
def string_default_keys : List String :=
  ["ssid", "bssid", "channel_bandwidth", "capabilities"]

/-- The per-entry rewrite of the first loop of `_prepare_wifi_data`
(handlers.py lines 118-126): `None` becomes `0` / `""` for the listed keys,
and an empty-string `bssid` becomes the sentinel MAC. -/
def prepEntry : String × JsonValue → String × JsonValue
  | (k, JsonValue.null) =>
      if k ∈ numeric_default_keys then (k, JsonValue.int 0)
      else if k ∈ string_default_keys then (k, JsonValue.str "")
      else (k, JsonValue.null)
  | (k, JsonValue.str s) =>
      if s = "" ∧ k = "bssid" then (k, JsonValue.str "00:00:00:00:00:00")
      else (k, JsonValue.str s)
  | e => e

/-- The seven fields guaranteed by the second loop of `_prepare_wifi_data`
(handlers.py line 129). -/
def all_required_fields : List String :=
  ["bssid", "frequency", "rssi", "ssid", "timestamp",
   "channel_bandwidth", "capabilities"]

/-- Default value for a field added by the second loop of `_prepare_wifi_data`
(handlers.py lines 132-135). -/
def defaultFor (f : String) : JsonValue :=
  if f ∈ numeric_default_keys then JsonValue.int 0 else JsonValue.str ""

/-- `key in dict`. -/
def containsKey (d : PyDict) (k : String) : Bool :=
  d.any (fun p => p.1 = k)

/-- One step of the second loop of `_prepare_wifi_data`: add the field with
its default if absent. -/
def ensureField (d : PyDict) (f : String) : PyDict :=
  if containsKey d f then d else d ++ [(f, defaultFor f)]

/-- `_prepare_wifi_data` (handlers.py lines 113-137): copy, rewrite each
present entry, then append any of the seven required fields that are missing,
in the order of `all_required_fields`. -/
def _prepare_wifi_data (data : PyDict) : PyDict :=
  all_required_fields.foldl ensureField (data.map prepEntry)

/-- Python `str.strip()` with no argument: remove whitespace from both ends
(restricted to the ASCII whitespace of `Char.isWhitespace`, which covers
every input the program compares against). -/
def pyStrip (s : String) : String :=
  String.mk
    (((s.data.dropWhile Char.isWhitespace).reverse.dropWhile
        Char.isWhitespace).reverse)

/-- `_is_example_payload` (handlers.py lines 222-236 and 409-417, identical):
`False` for non-dicts; for dicts, `True` when `bssid` (a string, stripped of
surrounding whitespace) equals the instruction placeholder, or when `ssid`
equals `'MyWiFi'`. -/
def _is_example_payload : JsonValue → Bool
  | JsonValue.obj fields =>
      (match (pyGet fields "bssid").getD (JsonValue.str "") with
       | JsonValue.str s => decide (pyStrip s = "00:11:22:33:44:55")
       | _ => false)
      || (match pyGet fields "ssid" with
          | some (JsonValue.str s) => decide (s = "MyWiFi")
          | _ => false)
  | _ => false

/-- Result of one interaction with the storage collaborator
(`controller.build_network` + `controller.save_network`). -/
inductive StorageResult where
  | saved    -- build and save succeed, save returns a truthy value
  | notSaved -- save returns a falsy value
  | raised   -- build or save raises an exception
deriving DecidableEq

/-- Python truthiness of a `(bool, reason)` tuple: a non-empty tuple is
always truthy, regardless of its contents. -/
def pyTruthyPair (_t : Bool × String) : Bool := true

/-- `_process_single_wifi_record` (handlers.py lines 140-172), instrumented
with the list of records handed to the storage collaborator.  Note the source
binds the whole `(bool, reason)` tuple returned by `_validate_wifi_data` to
`is_valid` and tests `if not is_valid:` — tuple truthiness, embedded by
`pyTruthyPair`.  Exceptions from build/save are caught inside (lines 170-172)
and turned into `False`; the function itself never raises. -/
def _process_single_wifi_record (storage : PyDict → StorageResult)
    (data : PyDict) : Except Unit Bool × List PyDict :=
  let prepared := _prepare_wifi_data data
  let is_valid := _validate_wifi_data prepared
  if pyTruthyPair is_valid then
    match storage prepared with
    | StorageResult.saved => (Except.ok true, [prepared])
    | StorageResult.notSaved => (Except.ok false, [prepared])
    | StorageResult.raised => (Except.ok false, [prepared])
  else (Except.ok false, [])

/-- Aggregate counts of one batch run (`total_count`, `success_count`,
`error_count` of handlers.py lines 181-183). -/
@[ext]
structure Outcome where
  total : Nat
  success : Nat
  error : Nat
deriving DecidableEq

/-- The body of the loop of `_process_multiple_wifi_records` (handlers.py
lines 187-200): non-dict elements count one error; otherwise the per-record
processor is invoked and `success`/`error` is bumped by its result, an
exception (`Except.error`) being caught and counted as an error. -/
def processOneElement (p : PyDict → Except Unit Bool × List PyDict)
    (acc : Outcome × List PyDict) (r : JsonValue) : Outcome × List PyDict :=
  match r with
  | JsonValue.obj fields =>
      match p fields with
      | (Except.ok true, tr) =>
          ({acc.1 with success := acc.1.success + 1}, acc.2 ++ tr)
      | (_, tr) =>
          ({acc.1 with error := acc.1.error + 1}, acc.2 ++ tr)
  | _ => ({acc.1 with error := acc.1.error + 1}, acc.2)

/-- `_process_multiple_wifi_records` (handlers.py lines 175-209), abstracted
over the per-record processor `p` and instrumented with the storage trace.
An empty batch returns early with no outcome (line 177-179). -/
def _process_multiple_wifi_records (p : PyDict → Except Unit Bool × List PyDict)
    (records : List JsonValue) : Option Outcome × List PyDict :=
  if records.isEmpty then (none, [])
  else
    let res := records.foldl (processOneElement p)
      ({ total := records.length, success := 0, error := 0 }, [])
    (some res.1, res.2)

/-- Result of one submission, as classified by `_process_json_file_content`
(handlers.py lines 238-262) after JSON parsing. -/
inductive SubmissionResult where
  | exampleWarning
  | batch (outcome : Option Outcome)
  | single (ok : Bool)
  | unsupported
deriving DecidableEq

/-- `_process_json_file_content` (handlers.py lines 212-262) after
`json.loads` succeeded, instrumented with the storage trace.  A list is
rejected whole when any dict element matches `_is_example_payload`; a dict is
rejected when it matches; scalars are unsupported.  The identical gate guards
the text path `handle_text_or_file` (lines 419-442). -/
def _process_json_file_content (storage : PyDict → StorageResult)
    (parsed : JsonValue) : SubmissionResult × List PyDict :=
  match parsed with
  | JsonValue.arr items =>
      if (items.filter (fun it => it.isDict)).any _is_example_payload then
        (SubmissionResult.exampleWarning, [])
      else
        let r := _process_multiple_wifi_records
          (fun f => _process_single_wifi_record storage f) items
        (SubmissionResult.batch r.1, r.2)
  | JsonValue.obj fields =>
      if _is_example_payload (JsonValue.obj fields) then
        (SubmissionResult.exampleWarning, [])
      else
        let r := _process_single_wifi_record storage fields
        (SubmissionResult.single (match r.1 with
          | Except.ok b => b
          | Except.error _ => false), r.2)
  | _ => (SubmissionResult.unsupported, [])

/-- A record that passes `_validate_wifi_data` after normalization. -/
def sampleValid : PyDict :=
  [("bssid", JsonValue.str "aa:bb:cc:dd:ee:ff"), ("ssid", JsonValue.str "net"),
   ("frequency", JsonValue.int 2412), ("rssi", JsonValue.int (-50)),
   ("timestamp", JsonValue.int 1698115200)]

/-- C1: the claim says that a record whose normalized form fails validation
makes the Single-Record Processor return `false` with no storage call.  The
code instead binds the `(bool, reason)` tuple to `is_valid` without
unpacking, so `if not is_valid:` never fires (a non-empty tuple is truthy):
for the empty record — whose normalized form fails validation — the
processor still hands the record to storage and, when the save succeeds,
returns `true`. -/
theorem C1_invalid_record_reaches_storage :
    (_validate_wifi_data (_prepare_wifi_data [])).1 = false ∧
    _process_single_wifi_record (fun _ => StorageResult.saved) [] =
      (Except.ok true, [_prepare_wifi_data []]) :=
  ⟨rfl, rfl⟩

/-- C2: the claim (and spec §8) expects the batch `[valid, invalid, valid]`
with always-succeeding storage to yield `{total:3, success:2, error:1}`.
Because the validation result tuple is always truthy (see C1), the invalid
middle record is also saved and counted a success: the code yields
`{total:3, success:3, error:0}`. -/
theorem C2_batch_accounting_of_code :
    (_validate_wifi_data (_prepare_wifi_data sampleValid)).1 = true ∧
    (_validate_wifi_data (_prepare_wifi_data [])).1 = false ∧
    (_process_multiple_wifi_records
        (fun f => _process_single_wifi_record (fun _ => StorageResult.saved) f)
        [JsonValue.obj sampleValid, JsonValue.obj [], JsonValue.obj sampleValid]).1 =
      some { total := 3, success := 3, error := 0 } :=
  ⟨rfl, rfl, rfl⟩

/-- C7: normalizing `{bssid:"", ssid:null, frequency:null, rssi:null,
timestamp:null}` yields exactly the seven-field record with the sentinel
bssid, empty strings and zero numerics (the association list below denotes
that dict; its key order matches the code's insertion order). -/
theorem C7_normalization_defaulting :
    _prepare_wifi_data
      [("bssid", JsonValue.str ""), ("ssid", JsonValue.null),
       ("frequency", JsonValue.null), ("rssi", JsonValue.null),
       ("timestamp", JsonValue.null)] =
      [("bssid", JsonValue.str "00:00:00:00:00:00"), ("ssid", JsonValue.str ""),
       ("frequency", JsonValue.int 0), ("rssi", JsonValue.int 0),
       ("timestamp", JsonValue.int 0), ("channel_bandwidth", JsonValue.str ""),
       ("capabilities", JsonValue.str "")] := rfl

/-- C10: booleans satisfy Python's `isinstance(_, int)` / `isinstance(_,
(int, float))` checks, so `{bssid:"a", ssid:"", frequency:true, rssi:false,
timestamp:true}` validates: `true` counts as `1 > 0` and `false` as the
integer `0 ≤ 0`. -/
theorem C10_booleans_validate :
    _validate_wifi_data
      [("bssid", JsonValue.str "a"), ("ssid", JsonValue.str ""),
       ("frequency", JsonValue.bool true), ("rssi", JsonValue.bool false),
       ("timestamp", JsonValue.bool true)] = (true, "") := rfl

/-- C4, counterexample: the claim says the Example-Payload Detector returns
`true` for every non-object input, but on the JSON number `42` the code's
first branch (`if not isinstance(obj, dict): return False`) returns
`false`. -/
theorem C4_counterexample :
    _is_example_payload (JsonValue.int 42) = false := rfl

/-- C4, amended: the detector returns `false` for every non-object input;
for objects it returns `true` when `bssid` stripped of whitespace equals
`'00:11:22:33:44:55'`, and when `ssid` equals `'MyWiFi'`. -/
theorem C4_amended_detector :
    (∀ v : JsonValue, v.isDict = false → _is_example_payload v = false) ∧
    (∀ (fields : PyDict) (s : String),
      pyGet fields "bssid" = some (JsonValue.str s) →
      pyStrip s = "00:11:22:33:44:55" →
      _is_example_payload (JsonValue.obj fields) = true) ∧
    (∀ fields : PyDict,
      pyGet fields "ssid" = some (JsonValue.str "MyWiFi") →
      _is_example_payload (JsonValue.obj fields) = true) := by
  refine ⟨?_, ?_, ?_⟩
  · intro v hv
    cases v <;> simp_all [_is_example_payload, JsonValue.isDict]
  · intro fields s h1 h2
    simp [_is_example_payload, h1, h2]
  · intro fields h1
    simp [_is_example_payload, h1]

/-- C4, witness for the amended theorem at concrete inputs. -/
theorem C4_amended_witness :
    _is_example_payload (JsonValue.int 42) = false ∧
    _is_example_payload
      (JsonValue.obj [("bssid", JsonValue.str " 00:11:22:33:44:55 ")]) = true ∧
    _is_example_payload (JsonValue.obj [("ssid", JsonValue.str "MyWiFi")]) = true :=
  ⟨C4_amended_detector.1 (JsonValue.int 42) rfl,
   C4_amended_detector.2.1 [("bssid", JsonValue.str " 00:11:22:33:44:55 ")]
     " 00:11:22:33:44:55 " rfl (by decide),
   C4_amended_detector.2.2 [("ssid", JsonValue.str "MyWiFi")] rfl⟩

/-- C3, counterexample: normalization is not idempotent on a candidate whose
`bssid` is absent: the first pass defaults `bssid` to `""`, the second pass
rewrites `""` to the sentinel `"00:00:00:00:00:00"`, so the two dicts differ
at key `bssid`. -/
theorem C3_counterexample :
    ¬ (pyGet (_prepare_wifi_data (_prepare_wifi_data [])) "bssid" =
       pyGet (_prepare_wifi_data []) "bssid") := by
  intro h
  have h1 : pyGet (_prepare_wifi_data (_prepare_wifi_data [])) "bssid" =
      some (JsonValue.str "00:00:00:00:00:00") := rfl
  have h2 : pyGet (_prepare_wifi_data []) "bssid" = some (JsonValue.str "") := rfl
  rw [h1, h2] at h
  injection h with h
  injection h with h
  exact absurd h (by decide)

/-- C5: if any dict element of a batch matches the Example-Payload Detector,
the whole submission is rejected before any processing: the classifier
answers the example warning, the batch processor is never entered, and the
storage trace is empty. -/
theorem C5_batch_poisoning (storage : PyDict → StorageResult)
    (items : List JsonValue)
    (h : ∃ it ∈ items, it.isDict = true ∧ _is_example_payload it = true) :
    _process_json_file_content storage (JsonValue.arr items) =
      (SubmissionResult.exampleWarning, []) := by
  have hany : (items.filter (fun it => it.isDict)).any _is_example_payload = true := by
    rw [List.any_eq_true]
    obtain ⟨it, hmem, hdict, hex⟩ := h
    exact ⟨it, List.mem_filter.mpr ⟨hmem, hdict⟩, hex⟩
  simp [_process_json_file_content, hany]

/-- C5, witness: a batch of one valid-looking record and one copy of the
instruction example is rejected whole, with an empty storage trace. -/
theorem C5_batch_poisoning_witness :
    _process_json_file_content (fun _ => StorageResult.saved)
      (JsonValue.arr [JsonValue.obj sampleValid,
        JsonValue.obj [("ssid", JsonValue.str "MyWiFi")]]) =
      (SubmissionResult.exampleWarning, []) :=
  C5_batch_poisoning (fun _ => StorageResult.saved) _
    ⟨JsonValue.obj [("ssid", JsonValue.str "MyWiFi")], by simp, rfl, rfl⟩

theorem prepEntry_null (k : String) :
    prepEntry (k, JsonValue.null) =
      (if k ∈ numeric_default_keys then (k, JsonValue.int 0)
       else if k ∈ string_default_keys then (k, JsonValue.str "")
       else (k, JsonValue.null)) := rfl

theorem prepEntry_str (k s : String) :
    prepEntry (k, JsonValue.str s) =
      (if s = "" ∧ k = "bssid" then (k, JsonValue.str "00:00:00:00:00:00")
       else (k, JsonValue.str s)) := rfl

theorem prepEntry_fst (e : String × JsonValue) : (prepEntry e).1 = e.1 := by
  obtain ⟨k, v⟩ := e
  cases v with
  | null => rw [prepEntry_null]; split_ifs <;> rfl
  | str s => rw [prepEntry_str]; split_ifs <;> rfl
  | bool b => rfl
  | int n => rfl
  | float q => rfl
  | arr xs => rfl
  | obj fs => rfl

/-- The entry rewrite of `_prepare_wifi_data` is idempotent on every entry
whose key is not a `bssid` bound to `None` (that one goes `None → "" →
sentinel` across two passes). -/
theorem prepEntry_idem (e : String × JsonValue)
    (h : e.1 = "bssid" → e.2.isNull = false) :
    prepEntry (prepEntry e) = prepEntry e := by
  obtain ⟨k, v⟩ := e
  cases v with
  | null =>
      have hk : k ≠ "bssid" := fun hk => by simpa [JsonValue.isNull] using h hk
      by_cases h1 : k ∈ numeric_default_keys
      · rw [prepEntry_null, if_pos h1]; rfl
      · by_cases h2 : k ∈ string_default_keys
        · rw [prepEntry_null, if_neg h1, if_pos h2, prepEntry_str,
            if_neg (fun hc => hk hc.2)]
        · rw [prepEntry_null, if_neg h1, if_neg h2, prepEntry_null,
            if_neg h1, if_neg h2]
  | str s =>
      by_cases hc : s = "" ∧ k = "bssid"
      · have h0 : prepEntry (k, JsonValue.str s) =
            (k, JsonValue.str "00:00:00:00:00:00") := by
          rw [prepEntry_str, if_pos hc]
        rw [h0, prepEntry_str,
          if_neg (fun hx => absurd hx.1 (by decide))]
      · have h0 : prepEntry (k, JsonValue.str s) = (k, JsonValue.str s) := by
          rw [prepEntry_str, if_neg hc]
        rw [h0]; exact h0
  | bool b => rfl
  | int n => rfl
  | float q => rfl
  | arr xs => rfl
  | obj fs => rfl

theorem containsKey_map_prepEntry (d : PyDict) (k : String) :
    containsKey (d.map prepEntry) k = containsKey d k := by
  induction d with
  | nil => rfl
  | cons e es ih =>
      simp only [containsKey, List.map_cons, List.any_cons] at ih ⊢
      rw [prepEntry_fst, ih]

theorem containsKey_ensureField (d : PyDict) (f k : String)
    (h : containsKey d k = true) :
    containsKey (ensureField d f) k = true := by
  unfold ensureField
  split
  · exact h
  · simp only [containsKey, List.any_append] at h ⊢
    rw [h, Bool.true_or]

theorem containsKey_foldl_ensureField (fs : List String) (d : PyDict)
    (k : String) (h : containsKey d k = true) :
    containsKey (fs.foldl ensureField d) k = true := by
  induction fs generalizing d with
  | nil => exact h
  | cons f fs ih => exact ih _ (containsKey_ensureField d f k h)

theorem containsKey_ensureField_self (d : PyDict) (f : String) :
    containsKey (ensureField d f) f = true := by
  unfold ensureField
  split
  · assumption
  · simp [containsKey, List.any_append]

theorem foldl_ensureField_contains (fs : List String) (d : PyDict) :
    ∀ f ∈ fs, containsKey (fs.foldl ensureField d) f = true := by
  induction fs generalizing d with
  | nil => intro f hf; cases hf
  | cons g gs ih =>
      intro f hf
      rcases List.mem_cons.mp hf with rfl | hf
      · exact containsKey_foldl_ensureField gs _ f
          (containsKey_ensureField_self d f)
      · exact ih _ f hf

theorem foldl_ensureField_of_contains (fs : List String) (d : PyDict)
    (h : ∀ f ∈ fs, containsKey d f = true) : fs.foldl ensureField d = d := by
  induction fs with
  | nil => rfl
  | cons g gs ih =>
      have hg : ensureField d g = d := by
        unfold ensureField; rw [if_pos (h g (by simp))]
      rw [List.foldl_cons, hg]
      exact ih (fun f hf => h f (by simp [hf]))

theorem mem_foldl_ensureField (fs : List String) (d : PyDict)
    (hb : containsKey d "bssid" = true) :
    ∀ e ∈ fs.foldl ensureField d,
      e ∈ d ∨ (∃ f, e = (f, defaultFor f) ∧ f ≠ "bssid") := by
  induction fs generalizing d with
  | nil => intro e he; exact Or.inl he
  | cons g gs ih =>
      intro e he
      rw [List.foldl_cons] at he
      have hb' : containsKey (ensureField d g) "bssid" = true :=
        containsKey_ensureField d g _ hb
      rcases ih (ensureField d g) hb' e he with h1 | h2
      · unfold ensureField at h1
        by_cases hc : containsKey d g = true
        · rw [if_pos hc] at h1; exact Or.inl h1
        · rw [if_neg hc] at h1
          rcases List.mem_append.mp h1 with h3 | h3
          · exact Or.inl h3
          · have he' : e = (g, defaultFor g) := by simpa using h3
            refine Or.inr ⟨g, he', fun hg => ?_⟩
            rw [hg] at hc
            exact hc hb
      · exact Or.inr h2

theorem map_prepEntry_id_of_fix {l : PyDict} (h : ∀ e ∈ l, prepEntry e = e) :
    l.map prepEntry = l := by
  induction l with
  | nil => rfl
  | cons e es ih =>
      rw [List.map_cons, h e (by simp), ih (fun x hx => h x (by simp [hx]))]

/-- C3, amended: normalization is idempotent for every candidate whose
`bssid` key is present with a non-`None` value.  (When `bssid` is absent or
`None` it is not: see `C3_counterexample`.) -/
theorem C3_amended_idempotence (data : PyDict)
    (hmem : containsKey data "bssid" = true)
    (hnull : ∀ p ∈ data, p.1 = "bssid" → p.2.isNull = false) :
    _prepare_wifi_data (_prepare_wifi_data data) = _prepare_wifi_data data := by
  unfold _prepare_wifi_data
  have hbm : containsKey (data.map prepEntry) "bssid" = true := by
    rw [containsKey_map_prepEntry]; exact hmem
  have hfix : ∀ e ∈ all_required_fields.foldl ensureField (data.map prepEntry),
      prepEntry e = e := by
    intro e he
    rcases mem_foldl_ensureField all_required_fields (data.map prepEntry)
        hbm e he with h1 | ⟨f, rfl, hf⟩
    · obtain ⟨a, ha, rfl⟩ := List.mem_map.mp h1
      exact prepEntry_idem a (hnull a ha)
    · unfold defaultFor
      split
      · rfl
      · rw [prepEntry_str, if_neg (fun hc => hf hc.2)]
  rw [map_prepEntry_id_of_fix hfix]
  exact foldl_ensureField_of_contains _ _
    (fun f hf => foldl_ensureField_contains all_required_fields
      (data.map prepEntry) f hf)

/-- C3, witness for the amended idempotence at a concrete candidate. -/
theorem C3_amended_witness :
    _prepare_wifi_data (_prepare_wifi_data [("bssid", JsonValue.str "aa")]) =
      _prepare_wifi_data [("bssid", JsonValue.str "aa")] :=
  C3_amended_idempotence [("bssid", JsonValue.str "aa")] (by decide) (by decide)

/-- A batch element counts as a success exactly when it is a dict and the
per-record processor returns (without raising) `true` for it. -/
def elementSucceeds (p : PyDict → Except Unit Bool × List PyDict)
    (r : JsonValue) : Bool :=
  match r with
  | JsonValue.obj fields =>
      match (p fields).1 with
      | Except.ok true => true
      | _ => false
  | _ => false

theorem processOne_stats (p : PyDict → Except Unit Bool × List PyDict)
    (acc : Outcome × List PyDict) (r : JsonValue) :
    (processOneElement p acc r).1.total = acc.1.total ∧
    (processOneElement p acc r).1.success =
      acc.1.success + (if elementSucceeds p r then 1 else 0) ∧
    (processOneElement p acc r).1.error =
      acc.1.error + (if elementSucceeds p r then 0 else 1) := by
  cases r
  case obj fields =>
    rcases hq : p fields with ⟨b, tr⟩
    cases b with
    | ok bb => cases bb <;> simp [processOneElement, elementSucceeds, hq]
    | error e => simp [processOneElement, elementSucceeds, hq]
  all_goals simp [processOneElement, elementSucceeds]

theorem foldl_processOne_total (p : PyDict → Except Unit Bool × List PyDict)
    (records : List JsonValue) :
    ∀ acc : Outcome × List PyDict,
      (records.foldl (processOneElement p) acc).1.total = acc.1.total := by
  induction records with
  | nil => intro acc; rfl
  | cons r rs ih =>
      intro acc
      rw [List.foldl_cons, ih (processOneElement p acc r)]
      exact (processOne_stats p acc r).1

theorem foldl_processOne_success (p : PyDict → Except Unit Bool × List PyDict)
    (records : List JsonValue) :
    ∀ acc : Outcome × List PyDict,
      (records.foldl (processOneElement p) acc).1.success =
        acc.1.success + records.countP (elementSucceeds p) := by
  induction records with
  | nil => intro acc; simp
  | cons r rs ih =>
      intro acc
      rw [List.foldl_cons, ih (processOneElement p acc r), List.countP_cons,
        (processOne_stats p acc r).2.1]
      cases h : elementSucceeds p r
      · simp [h]
      · simp [h]
        omega

theorem foldl_processOne_error (p : PyDict → Except Unit Bool × List PyDict)
    (records : List JsonValue) :
    ∀ acc : Outcome × List PyDict,
      (records.foldl (processOneElement p) acc).1.error =
        acc.1.error + records.countP (fun r => !(elementSucceeds p r)) := by
  induction records with
  | nil => intro acc; simp
  | cons r rs ih =>
      intro acc
      rw [List.foldl_cons, ih (processOneElement p acc r), List.countP_cons,
        (processOne_stats p acc r).2.2]
      cases h : elementSucceeds p r
      · simp [h]
        omega
      · simp [h]

theorem countP_bool_split {α : Type} (f : α → Bool) (l : List α) :
    l.countP f + l.countP (fun a => !(f a)) = l.length := by
  induction l with
  | nil => rfl
  | cons a as ih =>
      rw [List.countP_cons, List.countP_cons, List.length_cons]
      cases h : f a <;> simp [h] <;> omega

theorem processMultiple_cons (p : PyDict → Except Unit Bool × List PyDict)
    (r : JsonValue) (rs : List JsonValue) :
    (_process_multiple_wifi_records p (r :: rs)).1 =
      some ((r :: rs).foldl (processOneElement p)
        ({ total := (r :: rs).length, success := 0, error := 0 }, [])).1 := rfl

/-- C8: batch processing never aborts on a per-element failure.  For every
per-record processor `p` (which may raise, `Except.error`) and every
non-empty batch, the outcome counts every element exactly once: `success` is
the number of dict elements for which `p` returned `true`, and `error` the
number of all others — non-dict elements (which never reach `p`), elements
for which `p` returned `false`, and elements for which `p` raised. -/
theorem C8_batch_fault_tolerance (p : PyDict → Except Unit Bool × List PyDict)
    (records : List JsonValue) (h : records ≠ []) :
    (_process_multiple_wifi_records p records).1 =
      some { total := records.length,
             success := records.countP (elementSucceeds p),
             error := records.countP (fun r => !(elementSucceeds p r)) } := by
  cases records with
  | nil => exact absurd rfl h
  | cons r rs =>
      rw [processMultiple_cons]
      apply congrArg some
      apply Outcome.ext
      · exact foldl_processOne_total p (r :: rs) _
      · simpa using foldl_processOne_success p (r :: rs)
          ({ total := (r :: rs).length, success := 0, error := 0 }, [])
      · simpa using foldl_processOne_error p (r :: rs)
          ({ total := (r :: rs).length, success := 0, error := 0 }, [])

/-- C8, witness: a batch of a raising element, a non-dict element and a
successful element yields `total = 3`, `success = 1`, `error = 2`. -/
theorem C8_batch_fault_tolerance_witness :
    (_process_multiple_wifi_records
        (fun f => (if containsKey f "boom" then Except.error () else Except.ok true, []))
        [JsonValue.obj [("boom", JsonValue.null)], JsonValue.str "x",
         JsonValue.obj []]).1 =
      some { total := 3, success := 1, error := 2 } :=
  (C8_batch_fault_tolerance
      (fun f => (if containsKey f "boom" then Except.error () else Except.ok true, []))
      [JsonValue.obj [("boom", JsonValue.null)], JsonValue.str "x",
       JsonValue.obj []]
      (by simp)).trans (by rfl)

/-- C9: counter conservation — for every per-record processor and every
non-empty batch, the final outcome satisfies
`success_count + error_count = total_count`, because each element increments
exactly one of the two counters exactly once. -/
theorem C9_counter_conservation (p : PyDict → Except Unit Bool × List PyDict)
    (records : List JsonValue) (h : records ≠ []) :
    ∃ o : Outcome, (_process_multiple_wifi_records p records).1 = some o ∧
      o.success + o.error = o.total := by
  cases records with
  | nil => exact absurd rfl h
  | cons r rs =>
      refine ⟨_, processMultiple_cons p r rs, ?_⟩
      rw [foldl_processOne_total p (r :: rs)
          ({ total := (r :: rs).length, success := 0, error := 0 }, []),
        foldl_processOne_success p (r :: rs)
          ({ total := (r :: rs).length, success := 0, error := 0 }, []),
        foldl_processOne_error p (r :: rs)
          ({ total := (r :: rs).length, success := 0, error := 0 }, [])]
      simpa using countP_bool_split (elementSucceeds p) (r :: rs)

/-- C9, witness at a concrete one-element batch. -/
theorem C9_counter_conservation_witness :
    ∃ o : Outcome,
      (_process_multiple_wifi_records
          (fun f => _process_single_wifi_record (fun _ => StorageResult.saved) f)
          [JsonValue.obj []]).1 = some o ∧
      o.success + o.error = o.total :=
  C9_counter_conservation
    (fun f => _process_single_wifi_record (fun _ => StorageResult.saved) f)
    [JsonValue.obj []] (by simp)

/-- C6: for every record that passes the presence, `bssid` and `ssid` checks,
validation fails when `frequency` is not a number (Python `isinstance(_,
(int, float))`, which booleans also satisfy) or is `≤ 0`, when `rssi` is not
an integer (`isinstance(_, int)`; e.g. a float such as `-1.5`) or is `> 0`,
and when `timestamp` is not a number or is `≤ 0`. -/
theorem C6_range_and_type_checks (data : PyDict)
    (hall : ∀ f ∈ required_fields, (pyGet data f).isSome = true)
    (hb : isPyStr ((pyGet data "bssid").getD JsonValue.null) = true ∧
          pyStrLen ((pyGet data "bssid").getD JsonValue.null) ≠ 0)
    (hs : isPyStr ((pyGet data "ssid").getD JsonValue.null) = true) :
    ((¬ isPyNumber ((pyGet data "frequency").getD JsonValue.null) = true ∨
        pyNumVal ((pyGet data "frequency").getD JsonValue.null) ≤ 0) →
      (_validate_wifi_data data).1 = false) ∧
    ((¬ isPyInt ((pyGet data "rssi").getD JsonValue.null) = true ∨
        0 < pyIntVal ((pyGet data "rssi").getD JsonValue.null)) →
      (_validate_wifi_data data).1 = false) ∧
    ((¬ isPyNumber ((pyGet data "timestamp").getD JsonValue.null) = true ∨
        pyNumVal ((pyGet data "timestamp").getD JsonValue.null) ≤ 0) →
      (_validate_wifi_data data).1 = false) := by
  have hfind : required_fields.find? (fun f => (pyGet data f).isNone) = none := by
    rw [List.find?_eq_none]
    intro f hf hcontra
    have h1 := hall f hf
    rw [Option.isNone_iff_eq_none] at hcontra
    rw [hcontra] at h1
    simp at h1
  have hval : _validate_wifi_data data =
      (if ¬ isPyNumber ((pyGet data "frequency").getD JsonValue.null) = true ∨
          pyNumVal ((pyGet data "frequency").getD JsonValue.null) ≤ 0 then
        (false, "Frequency должен быть положительным числом")
      else if ¬ isPyInt ((pyGet data "rssi").getD JsonValue.null) = true ∨
          0 < pyIntVal ((pyGet data "rssi").getD JsonValue.null) then
        (false, "RSSI должен быть целым отрицательным числом")
      else if ¬ isPyNumber ((pyGet data "timestamp").getD JsonValue.null) = true ∨
          pyNumVal ((pyGet data "timestamp").getD JsonValue.null) ≤ 0 then
        (false, "Timestamp должен быть положительным числом")
      else (true, "")) := by
    unfold _validate_wifi_data
    rw [hfind]
    dsimp only
    rw [if_neg (fun hor => hor.elim (fun hx => hx hb.1) (fun hx => hb.2 hx)),
      if_neg (fun hx => hx hs)]
  refine ⟨?_, ?_, ?_⟩
  · intro h
    rw [hval, if_pos h]
  · intro h
    rw [hval]
    by_cases h3 : ¬ isPyNumber ((pyGet data "frequency").getD JsonValue.null) = true ∨
        pyNumVal ((pyGet data "frequency").getD JsonValue.null) ≤ 0
    · rw [if_pos h3]
    · rw [if_neg h3, if_pos h]
  · intro h
    rw [hval]
    by_cases h3 : ¬ isPyNumber ((pyGet data "frequency").getD JsonValue.null) = true ∨
        pyNumVal ((pyGet data "frequency").getD JsonValue.null) ≤ 0
    · rw [if_pos h3]
    · rw [if_neg h3]
      by_cases h4 : ¬ isPyInt ((pyGet data "rssi").getD JsonValue.null) = true ∨
          0 < pyIntVal ((pyGet data "rssi").getD JsonValue.null)
      · rw [if_pos h4]
      · rw [if_neg h4, if_pos h]

/-- C6, witness: the record `{bssid:"a", ssid:"b", frequency:0, rssi:-1.5,
timestamp:1}` — other checks passing — is rejected, here through the `rssi`
clause (`-1.5` is a float, not an integer). -/
theorem C6_range_and_type_checks_witness :
    (_validate_wifi_data
      [("bssid", JsonValue.str "a"), ("ssid", JsonValue.str "b"),
       ("frequency", JsonValue.int 0), ("rssi", JsonValue.float (-(3 : ℚ)/2)),
       ("timestamp", JsonValue.int 1)]).1 = false :=
  (C6_range_and_type_checks
    [("bssid", JsonValue.str "a"), ("ssid", JsonValue.str "b"),
     ("frequency", JsonValue.int 0), ("rssi", JsonValue.float (-(3 : ℚ)/2)),
     ("timestamp", JsonValue.int 1)]
    (by decide) (by decide) (by decide)).2.1 (Or.inl (by decide))
